import Mathlib

/-!
Verification development for the modelmirror repository.

Shallow embedding of the core components the claims are about:

* `DefaultCodeLinkParser` (src/modelmirror/parser/default_code_link_parser.py)
  together with the template method `CodeLinkParser.parse`
  (src/modelmirror/parser/code_link_parser.py);
* `MirrorSingletons` (src/modelmirror/singleton/singleton_manager.py),
  both as a sequential function and as a micro-step machine that makes
  thread interleavings explicit;
* `ClassRegister.__init_subclass__` / `ClassReference`
  (src/modelmirror/class_provider/);
* `Reflections.get` (src/modelmirror/reflections.py).

Python dicts are embedded as insertion-ordered association lists; Python
objects are embedded as records carrying their class name, the list of
class names they are assignable to (their method resolution order), and a
unique allocation id, so that reference equality is expressible.
-/

namespace ModelMirror

/-- JSON-like document values: the node type walked by the parser. -/
inductive JValue where
  | str (s : String)
  | num (n : Int)
  | bool (b : Bool)
  | null
  | list (xs : List JValue)
  | obj (fields : List (String × JValue))

/-- A map document node: a Python dict embedded as an insertion-ordered
association list (keys are unique in any node obtained from a parsed
document). -/
abbrev Node := List (String × JValue)

/-- `node[k]` lookup: value of the first binding of key `k`. -/
def lookupJ (k : String) : Node → Option JValue
  | [] => none
  | (k2, v) :: rest => if k2 = k then some v else lookupJ k rest

/-- `k in node` membership test. -/
def containsKey (k : String) (node : Node) : Bool :=
  (lookupJ k node).isSome

/-- `node.pop(k)` effect on the mapping: the node without key `k`. -/
def eraseKey (k : String) (node : Node) : Node :=
  node.filter (fun kv => kv.1 ≠ k)

/-- `ParsedKey` dataclass (src/modelmirror/parser/code_link_parser.py):
reference descriptor with an id, the sibling parameters, and an optional
instance name. -/
structure ParsedKey where
  id : String
  params : Node
  instance_ : Option String

/-- Helper for `raw_reference.split(":", 1)`: splits a character list at
the first colon, returning `none` when no colon occurs. -/
def splitColonAux : List Char → Option (List Char × List Char)
  | [] => none
  | c :: cs =>
      if c = ':' then some ([], cs)
      else
        match splitColonAux cs with
        | none => none
        | some (a, b) => some (c :: a, b)

/-- `raw.split(":", 1)` on strings: `none` when `":" ∉ raw`, otherwise the
part before the first colon and the part after it. -/
def splitColon (s : String) : Option (String × String) :=
  match splitColonAux s.toList with
  | none => none
  | some (a, b) => some (⟨a⟩, ⟨b⟩)

/-- `DefaultCodeLinkParser._create_code_link` output on a node whose
marker value is the string `raw` and whose remaining bindings are
`params`: split `raw` at the first colon into id and instance name, with
a dollar sign prepended to the instance name. -/
def mkParsedKey (raw : String) (params : Node) : ParsedKey :=
  match splitColon raw with
  | some (idPart, instPart) =>
      { id := idPart, params := params, instance_ := some ("$" ++ instPart) }
  | none => { id := raw, params := params, instance_ := none }

/-- `DefaultCodeLinkParser._create_code_link`
(src/modelmirror/parser/default_code_link_parser.py lines 23-29): pops the
marker key from the node, gathers the remaining bindings into a fresh
params mapping, and builds the descriptor. Returns the descriptor together
with the node as left mutated by `node.pop`. Only called on nodes that
hold a string at the marker key; other shapes are unreachable from
`parse`. -/
def createCodeLink (ph : String) (node : Node) : Option (ParsedKey × Node) :=
  match lookupJ ph node with
  | some (JValue.str raw) =>
      some (mkParsedKey raw (eraseKey ph node), eraseKey ph node)
  | _ => none

/-- `DefaultCodeLinkParser._is_code_link_node`: the node is an
instance-request node iff it contains the marker key. -/
def isCodeLinkNode (ph : String) (node : Node) : Bool :=
  containsKey ph node

/-- `DefaultCodeLinkParser._is_valid`: `True` when the marker value is a
string, raises `ValueError` otherwise (modelled as `Except.error`).
Only called when the marker key is present. -/
def isValidNode (ph : String) (node : Node) : Except String Bool :=
  match lookupJ ph node with
  | some (JValue.str _) => Except.ok true
  | _ => Except.error "Value of the placeholder key must be a string"

/-- `CodeLinkParser.parse` specialised to `DefaultCodeLinkParser`
(src/modelmirror/parser/code_link_parser.py lines 26-32): returns
`none` when the node is not a code-link node, propagates the
`ValueError` from `_is_valid` when the marker value is not a string, and
otherwise returns the descriptor from `_create_code_link` together with
the mutated node. -/
def parseNode (ph : String) (node : Node) : Except String (Option (ParsedKey × Node)) :=
  if ¬ isCodeLinkNode ph node then Except.ok none
  else
    match isValidNode ph node with
    | Except.error e => Except.error e
    | Except.ok valid =>
        if ¬ valid then Except.ok none
        else
          match createCodeLink ph node with
          | some res => Except.ok (some res)
          | none => Except.ok none

/-- The default marker key of `DefaultCodeLinkParser.__init__`. -/
def mirrorKey : String := "$mirror"

theorem lookupJ_eraseKey_self (k : String) (node : Node) :
    lookupJ k (eraseKey k node) = none := by
  induction node with
  | nil => rfl
  | cons kv rest ih =>
      by_cases h : kv.1 = k
      · simpa [eraseKey, List.filter, h] using ih
      · simpa [eraseKey, List.filter, h, lookupJ] using ih

theorem lookupJ_eraseKey_ne (k k2 : String) (node : Node) (h : k2 ≠ k) :
    lookupJ k2 (eraseKey k node) = lookupJ k2 node := by
  induction node with
  | nil => rfl
  | cons kv rest ih =>
      by_cases hk : kv.1 = k
      · have hne : ¬ kv.1 = k2 := by
          intro hc
          exact h (hc ▸ hk)
        rw [show eraseKey k (kv :: rest) = eraseKey k rest by
              simp [eraseKey, List.filter, hk]]
        rw [ih]
        simp [lookupJ, hne]
      · rw [show eraseKey k (kv :: rest) = kv :: eraseKey k rest by
              simp [eraseKey, List.filter, hk]]
        by_cases hk2 : kv.1 = k2
        · simp [lookupJ, hk2]
        · simp [lookupJ, hk2, ih]

theorem splitColonAux_of_no_colon (cs : List Char) (h : ':' ∉ cs) :
    splitColonAux cs = none := by
  induction cs with
  | nil => rfl
  | cons c rest ih =>
      have hc : ¬ c = ':' := by
        intro hc
        exact h (hc ▸ List.mem_cons_self c rest)
      have hrest : ':' ∉ rest := fun hm => h (List.mem_cons_of_mem c hm)
      simp [splitColonAux, hc, ih hrest]

theorem splitColonAux_first (a b : List Char) (h : ':' ∉ a) :
    splitColonAux (a ++ ':' :: b) = some (a, b) := by
  induction a with
  | nil => simp [splitColonAux]
  | cons c rest ih =>
      have hc : ¬ c = ':' := by
        intro hc
        exact h (hc ▸ List.mem_cons_self c rest)
      have hrest : ':' ∉ rest := fun hm => h (List.mem_cons_of_mem c hm)
      simp [splitColonAux, hc, ih hrest]

theorem splitColon_of_no_colon (s : String) (h : ':' ∉ s.toList) :
    splitColon s = none := by
  have := splitColonAux_of_no_colon s.toList h
  simp only [splitColon, String.toList] at this ⊢
  rw [this]

theorem splitColon_first (s : String) (a b : List Char)
    (hs : s.toList = a ++ ':' :: b) (h : ':' ∉ a) :
    splitColon s = some (⟨a⟩, ⟨b⟩) := by
  simp only [String.toList] at hs
  simp only [splitColon, String.toList, hs, splitColonAux_first a b h]

theorem mkParsedKey_params (raw : String) (params : Node) :
    (mkParsedKey raw params).params = params := by
  cases h : splitColon raw with
  | none => simp [mkParsedKey, h]
  | some p =>
      cases p with
      | mk a b => simp [mkParsedKey, h]

/-- Concrete instance-request node: marker value with a colon plus one
sibling parameter. -/
def c3Node : Node := [(mirrorKey, JValue.str "svc:shared"), ("x", JValue.num 1)]

/-- C3. Parsing a map node whose marker key holds the string V yields a
descriptor whose id is the part of V before the first colon; but the
descriptor's instance field is NOT the bare part after the first colon: the
code prepends a dollar sign to it. Counterexample at the node
`{$mirror: "svc:shared", x: 1}`: the descriptor's instance field is
`$shared`, which differs from the sibling-part `shared` the claim
describes. -/
theorem C3_counterexample :
    parseNode mirrorKey c3Node =
      Except.ok (some (⟨"svc", [("x", JValue.num 1)], some "$shared"⟩,
        [("x", JValue.num 1)])) ∧
    ("$shared" : String) ≠ "shared" := by
  constructor
  · rfl
  · decide

/-- C3 (amended): for every map node whose marker key `ph` maps to a string
V, parsing yields a descriptor whose id is the part of V before the first
colon (all of V when no colon occurs), whose instance field is a dollar
sign prepended to the part after the first colon when a colon occurs (and
absent otherwise), and whose parameter mapping holds exactly the sibling
keys of the node with their values. -/
theorem C3_descriptor_fields (ph : String) (node : Node) (raw : String)
    (hm : lookupJ ph node = some (JValue.str raw)) :
    parseNode ph node =
        Except.ok (some (mkParsedKey raw (eraseKey ph node), eraseKey ph node)) ∧
    (∀ a b, raw.toList = a ++ ':' :: b → ':' ∉ a →
        (mkParsedKey raw (eraseKey ph node)).id = ⟨a⟩ ∧
        (mkParsedKey raw (eraseKey ph node)).instance_ = some ("$" ++ ⟨b⟩)) ∧
    (':' ∉ raw.toList →
        (mkParsedKey raw (eraseKey ph node)).id = raw ∧
        (mkParsedKey raw (eraseKey ph node)).instance_ = none) ∧
    lookupJ ph (mkParsedKey raw (eraseKey ph node)).params = none ∧
    (∀ k, k ≠ ph → lookupJ k (mkParsedKey raw (eraseKey ph node)).params = lookupJ k node) := by
  refine ⟨?_, ?_, ?_, ?_, ?_⟩
  · simp [parseNode, isCodeLinkNode, containsKey, hm, isValidNode, createCodeLink]
  · intro a b hab hnotin
    have hs := splitColon_first raw a b hab hnotin
    constructor
    · simp [mkParsedKey, hs]
    · simp [mkParsedKey, hs]
  · intro hnc
    have hs := splitColon_of_no_colon raw hnc
    constructor
    · simp [mkParsedKey, hs]
    · simp [mkParsedKey, hs]
  · rw [mkParsedKey_params]
    exact lookupJ_eraseKey_self ph node
  · intro k hk
    rw [mkParsedKey_params]
    exact lookupJ_eraseKey_ne ph k node hk

/-- C3 witness: the amended descriptor-shape theorem applied at the concrete
node `{$mirror: "svc:shared", x: 1}`. -/
theorem C3_descriptor_fields_witness :
    parseNode mirrorKey c3Node =
      Except.ok (some (mkParsedKey "svc:shared" (eraseKey mirrorKey c3Node),
        eraseKey mirrorKey c3Node)) :=
  (C3_descriptor_fields mirrorKey c3Node "svc:shared" rfl).1

/-- Concrete node whose marker value is not a string. -/
def c4Node : Node := [(mirrorKey, JValue.num 1)]

/-- C4. A node that contains the marker key with a non-string value makes
`parse` fail with a ValueError instead of returning a non-null descriptor:
the claim that parse never fails on marker-bearing nodes is false at
`{$mirror: 1}`. -/
theorem C4_counterexample :
    containsKey mirrorKey c4Node = true ∧
    parseNode mirrorKey c4Node =
      Except.error "Value of the placeholder key must be a string" :=
  ⟨rfl, rfl⟩

/-- C4 (amended): `parse` returns null exactly when the node does not
contain the marker key; when the marker key maps to a string the node
parses to a non-null descriptor; when the marker key maps to a non-string
value, `parse` fails with the ValueError raised by `_is_valid`. -/
theorem C4_parse_null_iff_no_marker (ph : String) (node : Node) :
    (containsKey ph node = false → parseNode ph node = Except.ok none) ∧
    (parseNode ph node = Except.ok none → containsKey ph node = false) ∧
    (∀ raw, lookupJ ph node = some (JValue.str raw) →
        parseNode ph node =
          Except.ok (some (mkParsedKey raw (eraseKey ph node), eraseKey ph node))) ∧
    (∀ v, lookupJ ph node = some v → (∀ s, v ≠ JValue.str s) →
        parseNode ph node =
          Except.error "Value of the placeholder key must be a string") := by
  refine ⟨?_, ?_, ?_, ?_⟩
  · intro h
    simp [containsKey] at h
    simp [parseNode, isCodeLinkNode, containsKey, h]
  · intro h
    by_contra hc
    simp [containsKey] at hc
    obtain ⟨v, hv⟩ := Option.ne_none_iff_exists.mp hc
    rw [eq_comm] at hv
    cases v with
    | str raw =>
        simp [parseNode, isCodeLinkNode, containsKey, hv, isValidNode,
          createCodeLink] at h
    | num n =>
        simp [parseNode, isCodeLinkNode, containsKey, hv, isValidNode] at h
    | bool b =>
        simp [parseNode, isCodeLinkNode, containsKey, hv, isValidNode] at h
    | null =>
        simp [parseNode, isCodeLinkNode, containsKey, hv, isValidNode] at h
    | list xs =>
        simp [parseNode, isCodeLinkNode, containsKey, hv, isValidNode] at h
    | obj fs =>
        simp [parseNode, isCodeLinkNode, containsKey, hv, isValidNode] at h
  · intro raw hv
    simp [parseNode, isCodeLinkNode, containsKey, hv, isValidNode, createCodeLink]
  · intro v hv hns
    cases v with
    | str raw => exact absurd rfl (hns raw)
    | num n =>
        simp [parseNode, isCodeLinkNode, containsKey, hv, isValidNode]
    | bool b =>
        simp [parseNode, isCodeLinkNode, containsKey, hv, isValidNode]
    | null =>
        simp [parseNode, isCodeLinkNode, containsKey, hv, isValidNode]
    | list xs =>
        simp [parseNode, isCodeLinkNode, containsKey, hv, isValidNode]
    | obj fs =>
        simp [parseNode, isCodeLinkNode, containsKey, hv, isValidNode]

/-- Reference descriptor with the params field kept as a heap reference, to
express which dict object the descriptor holds. -/
structure ParsedKeyRef where
  id : String
  paramsRef : Nat
  instance_ : Option String

/-- Heap of map nodes: Python dict objects addressed by index, so that
in-place mutation and aliasing are expressible. -/
structure NodeHeap where
  cells : List Node

/-- Dereference a dict object. -/
def loadNode (h : NodeHeap) (r : Nat) : Node := h.cells.getD r []

/-- In-place update of a dict object. -/
def storeNode (h : NodeHeap) (r : Nat) (m : Node) : NodeHeap := ⟨h.cells.set r m⟩

/-- Allocation of a fresh dict object. -/
def allocNode (h : NodeHeap) (m : Node) : Nat × NodeHeap :=
  (h.cells.length, ⟨h.cells ++ [m]⟩)

/-- `DefaultCodeLinkParser._create_code_link` with the dict effects made
explicit: `node.pop(self._placeholder)` removes the marker key from the
node object in place, the comprehension over the remaining items allocates
a fresh params dict, and the descriptor holds a reference to that fresh
dict, not to the input node. -/
def createCodeLinkRef (ph : String) (r : Nat) (h : NodeHeap) :
    Option (ParsedKeyRef × NodeHeap) :=
  match lookupJ ph (loadNode h r) with
  | some (JValue.str raw) =>
      let m2 := eraseKey ph (loadNode h r)
      let h1 := storeNode h r m2
      let a := allocNode h1 m2
      let pk := mkParsedKey raw m2
      some (⟨pk.id, a.1, pk.instance_⟩, a.2)
  | _ => none

/-- C9: parsing a reference node mutates the input node: after
`_create_code_link` returns, the marker key is gone from the original node
object while every sibling binding is still in it, and the descriptor's
params mapping is a freshly allocated dict, not the input node object. -/
theorem C9_parse_mutates_node (ph : String) (h : NodeHeap) (r : Nat)
    (node : Node) (raw : String)
    (hr : r < h.cells.length) (hl : loadNode h r = node)
    (hm : lookupJ ph node = some (JValue.str raw)) :
    ∃ pk h2, createCodeLinkRef ph r h = some (pk, h2) ∧
      lookupJ ph (loadNode h2 r) = none ∧
      (∀ k, k ≠ ph → lookupJ k (loadNode h2 r) = lookupJ k node) ∧
      pk.paramsRef ≠ r ∧
      loadNode h2 pk.paramsRef = eraseKey ph node := by
  refine ⟨⟨(mkParsedKey raw (eraseKey ph node)).id, h.cells.length,
    (mkParsedKey raw (eraseKey ph node)).instance_⟩,
    ⟨(h.cells.set r (eraseKey ph node)) ++ [eraseKey ph node]⟩, ?_, ?_, ?_, ?_, ?_⟩
  · simp [createCodeLinkRef, hl, hm, storeNode, allocNode, List.length_set]
  · have hload : loadNode ⟨(h.cells.set r (eraseKey ph node)) ++ [eraseKey ph node]⟩ r
        = eraseKey ph node := by
      have hr2 : r < (h.cells.set r (eraseKey ph node)).length := by
        simpa [List.length_set] using hr
      simp [loadNode, List.getD, List.getElem?_append, hr, hr2, List.getElem?_set_self hr]
    rw [hload]
    exact lookupJ_eraseKey_self ph node
  · intro k hk
    have hload : loadNode ⟨(h.cells.set r (eraseKey ph node)) ++ [eraseKey ph node]⟩ r
        = eraseKey ph node := by
      have hr2 : r < (h.cells.set r (eraseKey ph node)).length := by
        simpa [List.length_set] using hr
      simp [loadNode, List.getD, List.getElem?_append, hr, hr2, List.getElem?_set_self hr]
    rw [hload]
    exact lookupJ_eraseKey_ne ph k node hk
  · exact fun hc => absurd (hc ▸ hr) (lt_irrefl r)
  · have hlen : (h.cells.set r (eraseKey ph node)).length = h.cells.length :=
      List.length_set h.cells r (eraseKey ph node)
    simp [loadNode, List.getD, List.getElem?_append, hlen, Nat.sub_self]

/-- C9 witness: the mutation theorem applied to a one-cell heap holding the
concrete node `{$mirror: "svc:shared", x: 1}`. -/
theorem C9_parse_mutates_node_witness :
    ∃ pk h2, createCodeLinkRef mirrorKey 0 ⟨[c3Node]⟩ = some (pk, h2) ∧
      lookupJ mirrorKey (loadNode h2 0) = none ∧
      (∀ k, k ≠ mirrorKey → lookupJ k (loadNode h2 0) = lookupJ k c3Node) ∧
      pk.paramsRef ≠ 0 ∧
      loadNode h2 pk.paramsRef = eraseKey mirrorKey c3Node :=
  C9_parse_mutates_node mirrorKey ⟨[c3Node]⟩ 0 c3Node "svc:shared"
    (by decide) rfl rfl

/-- A Python object as the singleton manager handles it: the class it was
allocated for, a unique allocation id standing for its address (so that
reference equality is expressible), and whether `__init__` has run on it.
`object.__new__` allocates without running `__init__`. -/
structure PyObj where
  cls : String
  allocId : Nat
  initRun : Bool
deriving Repr, DecidableEq

/-- Class-level state of `MirrorSingletons`: the `__instances` dict plus an
allocation counter handing out fresh object identities. -/
structure SingletonState where
  instances : List (String × PyObj)
  nextAlloc : Nat
deriving Repr, DecidableEq

/-- `MirrorSingletons.__create_instance_key`
(src/modelmirror/singleton/singleton_manager.py lines 22-25): the f-string
over the package name, the parser's type name and the placeholder. The
mirror class is not part of the key. -/
def createInstanceKey (packageName parserTypeName placeholder : String) : String :=
  packageName ++ ":" ++ parserTypeName ++ ":" ++ placeholder

/-- Dict lookup in `__instances`. -/
def lookupObj (k : String) : List (String × PyObj) → Option PyObj
  | [] => none
  | (k2, o) :: rest => if k2 = k then some o else lookupObj k rest

/-- Dict assignment `d[k] = o`: overwrites the binding of `k` when present,
appends it otherwise. -/
def setObj (k : String) (o : PyObj) : List (String × PyObj) → List (String × PyObj)
  | [] => [(k, o)]
  | (k2, o2) :: rest =>
      if k2 = k then (k, o) :: rest else (k2, o2) :: setObj k o rest

/-- `MirrorSingletons.get_or_create_instance`
(src/modelmirror/singleton/singleton_manager.py lines 9-20), run without
interference: build the key from (package name, parser type name,
placeholder); when the key is absent allocate a bare object of the mirror
class with `object.__new__` and store it; return the object stored under
the key. -/
def getOrCreateInstance (mirrorClass : String)
    (packageName parserTypeName placeholder : String)
    (σ : SingletonState) : PyObj × SingletonState :=
  match lookupObj (createInstanceKey packageName parserTypeName placeholder) σ.instances with
  | some inst => (inst, σ)
  | none =>
      let inst : PyObj := ⟨mirrorClass, σ.nextAlloc, false⟩
      (inst,
        ⟨setObj (createInstanceKey packageName parserTypeName placeholder) inst σ.instances,
          σ.nextAlloc + 1⟩)

theorem lookupObj_setObj_self (k : String) (o : PyObj)
    (l : List (String × PyObj)) : lookupObj k (setObj k o l) = some o := by
  induction l with
  | nil => simp [setObj, lookupObj]
  | cons kv rest ih =>
      by_cases h : kv.1 = k
      · simp [setObj, lookupObj, h]
      · simpa [setObj, lookupObj, h] using ih

theorem getOrCreateInstance_of_some (cls P R S : String) (σ : SingletonState)
    (o : PyObj) (h : lookupObj (createInstanceKey P R S) σ.instances = some o) :
    getOrCreateInstance cls P R S σ = (o, σ) := by
  simp [getOrCreateInstance, h]

theorem getOrCreateInstance_of_none (cls P R S : String) (σ : SingletonState)
    (h : lookupObj (createInstanceKey P R S) σ.instances = none) :
    getOrCreateInstance cls P R S σ =
      (⟨cls, σ.nextAlloc, false⟩,
        ⟨setObj (createInstanceKey P R S) ⟨cls, σ.nextAlloc, false⟩ σ.instances,
          σ.nextAlloc + 1⟩) := by
  simp [getOrCreateInstance, h]

/-- C2: two sequential calls to `get_or_create_instance` with the same
package name, parser type name and placeholder return the same object
(reference equality, expressed through the unique allocation id carried by
each object), the first call stores the object under the derived key when
that key is absent, and a call finding the key present returns the stored
object with the state untouched (never a copy). -/
theorem C2_singleton_reference_equality (cls P R S : String) (σ : SingletonState) :
    ((getOrCreateInstance cls P R S ((getOrCreateInstance cls P R S σ).2)).1
        = (getOrCreateInstance cls P R S σ).1) ∧
    ((getOrCreateInstance cls P R S ((getOrCreateInstance cls P R S σ).2)).2
        = (getOrCreateInstance cls P R S σ).2) ∧
    (lookupObj (createInstanceKey P R S) σ.instances = none →
        lookupObj (createInstanceKey P R S)
            ((getOrCreateInstance cls P R S σ).2).instances
          = some ((getOrCreateInstance cls P R S σ).1)) ∧
    (∀ o, lookupObj (createInstanceKey P R S) σ.instances = some o →
        getOrCreateInstance cls P R S σ = (o, σ)) := by
  cases h : lookupObj (createInstanceKey P R S) σ.instances with
  | some o =>
      have h1 := getOrCreateInstance_of_some cls P R S σ o h
      refine ⟨?_, ?_, ?_, ?_⟩
      · rw [h1]
        rw [getOrCreateInstance_of_some cls P R S σ o h]
      · rw [h1]
        rw [getOrCreateInstance_of_some cls P R S σ o h]
      · intro hc
        exact Option.noConfusion hc
      · intro o2 h2
        injection h2 with h4
        rw [← h4]
        exact h1
  | none =>
      have h1 := getOrCreateInstance_of_none cls P R S σ h
      have hstored : lookupObj (createInstanceKey P R S)
          ((getOrCreateInstance cls P R S σ).2).instances
            = some ((getOrCreateInstance cls P R S σ).1) := by
        rw [h1]
        exact lookupObj_setObj_self _ _ _
      have h2 := getOrCreateInstance_of_some cls P R S
        ((getOrCreateInstance cls P R S σ).2)
        ((getOrCreateInstance cls P R S σ).1) hstored
      refine ⟨?_, ?_, fun _ => hstored, ?_⟩
      · rw [h2]
      · rw [h2]
      · intro o2 ho2
        exact Option.noConfusion ho2

/-- C10: the storage key ignores the requested mirror class: after a first
call with class A creates the record, a second call with a different class
B but the same (package name, parser type name, placeholder) returns the
very object allocated for A — an object whose class is A, not B — and that
object was allocated by `object.__new__`, so the registry never ran its
`__init__`. -/
theorem C10_key_ignores_mirror_class (A B P R S : String) (σ : SingletonState)
    (habsent : lookupObj (createInstanceKey P R S) σ.instances = none) :
    (getOrCreateInstance B P R S ((getOrCreateInstance A P R S σ).2)).1
      = (getOrCreateInstance A P R S σ).1 ∧
    ((getOrCreateInstance A P R S σ).1).cls = A ∧
    ((getOrCreateInstance A P R S σ).1).initRun = false := by
  have h1 := getOrCreateInstance_of_none A P R S σ habsent
  have hstored : lookupObj (createInstanceKey P R S)
      ((getOrCreateInstance A P R S σ).2).instances
        = some ((getOrCreateInstance A P R S σ).1) := by
    rw [h1]
    exact lookupObj_setObj_self _ _ _
  have h2 := getOrCreateInstance_of_some B P R S
    ((getOrCreateInstance A P R S σ).2)
    ((getOrCreateInstance A P R S σ).1) hstored
  refine ⟨?_, ?_, ?_⟩
  · rw [h2]
  · rw [h1]
  · rw [h1]

/-- C10 witness: from the empty registry, a call for class A then a call
for class B under the same key return the object allocated for A, with
`__init__` never run. -/
theorem C10_key_ignores_mirror_class_witness :
    (getOrCreateInstance "B" "pkg" "DefaultCodeLinkParser" "$mirror"
        ((getOrCreateInstance "A" "pkg" "DefaultCodeLinkParser" "$mirror" ⟨[], 0⟩).2)).1
      = (getOrCreateInstance "A" "pkg" "DefaultCodeLinkParser" "$mirror" ⟨[], 0⟩).1 ∧
    ((getOrCreateInstance "A" "pkg" "DefaultCodeLinkParser" "$mirror" ⟨[], 0⟩).1).cls = "A" ∧
    ((getOrCreateInstance "A" "pkg" "DefaultCodeLinkParser" "$mirror" ⟨[], 0⟩).1).initRun
      = false :=
  C10_key_ignores_mirror_class "A" "B" "pkg" "DefaultCodeLinkParser" "$mirror"
    ⟨[], 0⟩ rfl

/-- Local state of one thread running `get_or_create_instance`: its line
number inside the method body and the value its final dict read returned.
Line 0 is the membership check, line 1 the allocate-and-store statement,
line 2 the final `return cls.__instances[instance_key]`, line 3 done. -/
structure ThreadSt where
  pc : Nat
  result : Option PyObj
deriving Repr, DecidableEq

/-- Shared-plus-local state of two threads running
`get_or_create_instance` against the class-level `__instances` dict. -/
structure ConcState where
  shared : SingletonState
  t1 : ThreadSt
  t2 : ThreadSt
deriving Repr, DecidableEq

/-- One atomic statement of `get_or_create_instance` as one thread
executes it: the `instance_key not in cls.__instances` check, the
`object.__new__` allocation plus `cls.__instances[instance_key] = instance`
store, and the final `return cls.__instances[instance_key]` read. A thread
switch may happen between any two of these statements — the method body
holds no lock. -/
def threadStep (mirrorClass P R S : String) (σ : SingletonState)
    (t : ThreadSt) : SingletonState × ThreadSt :=
  match t.pc with
  | 0 =>
      match lookupObj (createInstanceKey P R S) σ.instances with
      | some _ => (σ, ⟨2, t.result⟩)
      | none => (σ, ⟨1, t.result⟩)
  | 1 =>
      (⟨setObj (createInstanceKey P R S) ⟨mirrorClass, σ.nextAlloc, false⟩ σ.instances,
          σ.nextAlloc + 1⟩,
        ⟨2, t.result⟩)
  | 2 => (σ, ⟨3, lookupObj (createInstanceKey P R S) σ.instances⟩)
  | _ => (σ, t)

/-- Run two concurrent `get_or_create_instance` calls under an explicit
schedule: `true` lets thread 1 execute its next statement, `false` thread
2. Both calls use the same key (package name, parser type name,
placeholder); `cls1` and `cls2` are the mirror classes the two callers
request. -/
def runSched (cls1 cls2 P R S : String) : List Bool → ConcState → ConcState
  | [], c => c
  | b :: rest, c =>
      if b then
        runSched cls1 cls2 P R S rest
          ⟨(threadStep cls1 P R S c.shared c.t1).1,
            (threadStep cls1 P R S c.shared c.t1).2, c.t2⟩
      else
        runSched cls1 cls2 P R S rest
          ⟨(threadStep cls2 P R S c.shared c.t2).1,
            c.t1, (threadStep cls2 P R S c.shared c.t2).2⟩

/-- Both threads at the start of the method body over a shared registry
state. -/
def initConc (σ : SingletonState) : ConcState := ⟨σ, ⟨0, none⟩, ⟨0, none⟩⟩

/-- The schedule in which the two calls do not interleave: thread 1 runs
its whole body, then thread 2. -/
def atomicSched : List Bool := [true, true, true, false, false, false]

/-- The racing schedule: both threads pass the membership check before
either stores, so each allocates an object of its own. -/
def racySched : List Bool := [true, false, true, true, false, false]

/-- C5. `get_or_create_instance` is not atomic: under the interleaving in
which both callers pass the `not in` check before either stores, each
caller allocates a record for the same key (the allocation counter ends at
2) and the two callers receive objects with different identities — the
claim that at most one record is ever created and both callers receive the
same record is false at this concrete schedule, starting from the empty
registry. -/
theorem C5_counterexample :
    (runSched "Svc" "Svc" "pkg" "DefaultCodeLinkParser" "$mirror" racySched
        (initConc ⟨[], 0⟩)).t1.result = some ⟨"Svc", 0, false⟩ ∧
    (runSched "Svc" "Svc" "pkg" "DefaultCodeLinkParser" "$mirror" racySched
        (initConc ⟨[], 0⟩)).t2.result = some ⟨"Svc", 1, false⟩ ∧
    (runSched "Svc" "Svc" "pkg" "DefaultCodeLinkParser" "$mirror" racySched
        (initConc ⟨[], 0⟩)).shared.nextAlloc = 2 ∧
    (⟨"Svc", 0, false⟩ : PyObj) ≠ ⟨"Svc", 1, false⟩ := by
  refine ⟨rfl, rfl, rfl, ?_⟩
  decide

/-- C5 (amended): the check-then-create sequence of
`get_or_create_instance` is not inside a mutual-exclusion scope, so
atomicity holds only when the two calls do not interleave: under the
non-interleaved schedule both callers receive the same record for the key
and at most one record is allocated, while an interleaved schedule can
allocate two records for the same key (see the counterexample). -/
theorem C5_sequential_schedule_single_record (cls1 cls2 P R S : String)
    (σ : SingletonState) :
    ∃ o, (runSched cls1 cls2 P R S atomicSched (initConc σ)).t1.result = some o ∧
      (runSched cls1 cls2 P R S atomicSched (initConc σ)).t2.result = some o ∧
      (runSched cls1 cls2 P R S atomicSched (initConc σ)).shared.nextAlloc
        ≤ σ.nextAlloc + 1 := by
  cases h : lookupObj (createInstanceKey P R S) σ.instances with
  | some o =>
      refine ⟨o, ?_, ?_, ?_⟩ <;>
        simp [runSched, atomicSched, initConc, threadStep, h]
  | none =>
      refine ⟨⟨cls1, σ.nextAlloc, false⟩, ?_, ?_, ?_⟩ <;>
        simp [runSched, atomicSched, initConc, threadStep, h, lookupObj_setObj_self]

/-- `ClassReference` (src/modelmirror/class_provider/class_reference.py): a
pydantic record of schema identifier, version, and target class (classes
stand for their names). -/
structure ClassReference where
  schema_ : String
  version : String
  cls : String
deriving Repr, DecidableEq

/-- `ClassRegister.__init_subclass__`
(src/modelmirror/class_provider/class_register.py lines 9-14): pops the
`reference` keyword of the subclass declaration, raises a ValueError when
it is absent, and otherwise stores it on the subclass. The method keeps no
registry state and performs no duplicate check of any kind. -/
def initSubclass (reference : Option ClassReference) : Except String ClassReference :=
  match reference with
  | none => Except.error "ClassRegister reference must be provided"
  | some r => Except.ok r

/-- A sequence of `ClassRegister` subclass declarations: each runs
`__init_subclass__`; the result collects each declared class reference in
declaration order (the registry the declarations give rise to). -/
def declareAll : List (Option ClassReference) → Except String (List ClassReference)
  | [] => Except.ok []
  | r :: rest =>
      match initSubclass r with
      | Except.error e => Except.error e
      | Except.ok cr =>
          match declareAll rest with
          | Except.error e => Except.error e
          | Except.ok crs => Except.ok (cr :: crs)

/-- C6. Declaring two `ClassRegister` subclasses whose references carry the
same (schema, version) pair both succeed: the second declaration does not
fail with a DuplicateRegistration error, and the resulting registry holds
the pair twice, so (schema, version) uniqueness is not enforced. -/
theorem C6_counterexample :
    declareAll [some ⟨"svc", "1.0", "A"⟩, some ⟨"svc", "1.0", "B"⟩]
      = Except.ok [⟨"svc", "1.0", "A"⟩, ⟨"svc", "1.0", "B"⟩] ∧
    (⟨"svc", "1.0", "A"⟩ : ClassReference).schema_
      = (⟨"svc", "1.0", "B"⟩ : ClassReference).schema_ ∧
    (⟨"svc", "1.0", "A"⟩ : ClassReference).version
      = (⟨"svc", "1.0", "B"⟩ : ClassReference).version := by
  refine ⟨rfl, rfl, rfl⟩

/-- C6 (amended): declaring a `ClassRegister` subclass fails (with a
ValueError) exactly when no reference is supplied; a declaration that does
supply a reference succeeds whatever was declared before it — in
particular a (schema, version) pair already present is accepted again, so
no DuplicateRegistration error exists at declaration time. -/
theorem C6_registration_never_checks_duplicates
    (prior : List ClassReference) (r : ClassReference) :
    declareAll (prior.map some ++ [some r]) = Except.ok (prior ++ [r]) ∧
    initSubclass (some r) = Except.ok r ∧
    initSubclass none = Except.error "ClassRegister reference must be provided" := by
  refine ⟨?_, rfl, rfl⟩
  induction prior with
  | nil => rfl
  | cons p rest ih =>
      simp only [List.map, List.cons_append, declareAll, initSubclass]
      rw [List.append_eq, ih]

/-- `InstanceRecord`: an identity together with its materialized value, or
an empty placeholder (spec section 3, "Instance Record"). -/
structure InstanceRecord where
  identity : String
  value : Option String
deriving Repr, DecidableEq

/-- Modelled from the spec: the Singleton Registry operation
`complete(record, value)` — "fills the placeholder's materialized value
exactly once; completing an already-completed record is an error
(DoubleCompletion)". The resolver code that completes a pre-allocated
placeholder is not among the files under src (only the registry that
allocates, `MirrorSingletons`, is). -/
def completeRecord (rec : InstanceRecord) (v : String) : Except String InstanceRecord :=
  match rec.value with
  | none => Except.ok ⟨rec.identity, some v⟩
  | some _ => Except.error "DoubleCompletion"

/-- C7: completing a placeholder record succeeds the first time, filling
its value; completing the already-completed record fails with
DoubleCompletion, and the record still holds the value the first
completion stored. -/
theorem C7_complete_exactly_once (rec : InstanceRecord) (v v2 : String)
    (h : rec.value = none) :
    completeRecord rec v = Except.ok ⟨rec.identity, some v⟩ ∧
    (∀ rec2, completeRecord rec v = Except.ok rec2 →
        completeRecord rec2 v2 = Except.error "DoubleCompletion" ∧
        rec2.value = some v) := by
  constructor
  · simp [completeRecord, h]
  · intro rec2 h2
    simp [completeRecord, h] at h2
    rw [← h2]
    constructor
    · simp [completeRecord]
    · simp

/-- C7 witness: the exactly-once completion law at a concrete placeholder. -/
theorem C7_complete_exactly_once_witness :
    completeRecord ⟨"db", none⟩ "conn" = Except.ok ⟨"db", some "conn"⟩ ∧
    (∀ rec2, completeRecord ⟨"db", none⟩ "conn" = Except.ok rec2 →
        completeRecord rec2 "other" = Except.error "DoubleCompletion" ∧
        rec2.value = some "conn") :=
  C7_complete_exactly_once ⟨"db", none⟩ "conn" "other" rfl

/-- Generic string-keyed dict lookup (first binding wins). -/
def lookupS {α : Type} (k : String) : List (String × α) → Option α
  | [] => none
  | (k2, v) :: rest => if k2 = k then some v else lookupS k rest

/-- A materialized instance as the typed query container sees it: its class
name together with every class name it is an instance of (its method
resolution order), so that `isinstance`-style assignability is a
membership test. -/
structure RObj where
  className : String
  mro : List String
deriving Repr, DecidableEq

/-- `isinstance(o, T)`: the object is assignable to class `T`. -/
def assignable (o : RObj) (T : String) : Bool := T ∈ o.mro

/-- `id.startswith("$")`: the string opens with a dollar sign. -/
def startsWithDollar (s : String) : Bool :=
  match s.toList with
  | [] => false
  | c :: _ => c = '$'

/-- State of a `Reflections` object (src/modelmirror/reflections.py lines
10-14): the identity-to-instance dict, the `__class_names` dict from a
class to the instance names of that class, and the `__singleton_path`
dict from `$`-prefixed names to identities. -/
structure Reflections where
  instances : List (String × RObj)
  class_names : List (String × List String)
  singleton_path : List (String × String)
deriving Repr, DecidableEq

/-- `Reflections.__init__` (src/modelmirror/reflections.py lines 10-14):
stores the instances and the singleton-path map and initialises
`__class_names` to the empty dict. No statement of the class ever adds an
entry to `__class_names`. -/
def Reflections.init (insts : List (String × RObj))
    (sp : List (String × String)) : Reflections :=
  ⟨insts, [], sp⟩

/-- Modelled from the spec: `InstanceContainer.get_id` — the file
src/modelmirror/instance/instance_container.py is not among the sources.
Per the spec, `get_by_name` is a "direct lookup by identity, with an
assignability check against `type`; fails with NameNotFound /
TypeMismatch". -/
def getId (insts : List (String × RObj)) (id T : String) : Except String RObj :=
  match lookupS id insts with
  | none => Except.error "NameNotFound"
  | some o => if assignable o T then Except.ok o else Except.error "TypeMismatch"

/-- Modelled from the spec: `InstanceContainer.get_cls` — the file
src/modelmirror/instance/instance_container.py is not among the sources.
Per the spec, `get_one(type)` "succeeds iff exactly one materialized
instance is assignable to `type`; fails with AmbiguousType if more than
one, UnknownType if none". -/
def getCls (insts : List (String × RObj)) (T : String) : Except String RObj :=
  match insts.filter (fun kv => assignable kv.2 T) with
  | [] => Except.error "UnknownType"
  | [kv] => Except.ok kv.2
  | _ => Except.error "AmbiguousType"

/-- `Reflections.get` (src/modelmirror/reflections.py lines 28-47)
restricted to the overloads the claims exercise: a class `T` with an
optional string id. With an id, a `$`-prefixed id is first translated
through `__singleton_path` (a missing key raises the dict's KeyError) and
the result looked up through `InstanceContainer.get_id`; with no id, the
`__class_names` guard raises "Unknown instance type" when `T` is not a
key, "Multiple instances of type" when `T` maps to more than one name, and
otherwise defers to `InstanceContainer.get_cls`. -/
def Reflections.get (r : Reflections) (T : String) (id : Option String) :
    Except String RObj :=
  match id with
  | some i =>
      if startsWithDollar i then
        match lookupS i r.singleton_path with
        | none => Except.error "KeyError"
        | some i2 => getId r.instances i2 T
      else getId r.instances i T
  | none =>
      match lookupS T r.class_names with
      | none => Except.error "Unknown instance type"
      | some names =>
          if names.length > 1 then Except.error "Multiple instances of type"
          else getCls r.instances T

/-- C1: a `Reflections` object as `__init__` builds it always fails the
no-id `get(T)` query with the UnknownType error ("Unknown instance type"),
whatever instances the graph holds: `__class_names` starts empty and is
never populated, so the exactly-one-assignable success case the spec
describes is unreachable. In particular at the failing input of a graph
holding exactly one instance of `T`, the call still raises UnknownType. -/
theorem C1_get_one_always_unknown_type (insts : List (String × RObj))
    (sp : List (String × String)) (T : String) :
    Reflections.get (Reflections.init insts sp) T none
      = Except.error "Unknown instance type" := rfl

/-- C8: `get(T, N)` performs a direct lookup of N's identity — translating
a `$`-prefixed name through the singleton-path map first — with an
assignability check against `T`: when no instance holds the translated
identity it fails with NameNotFound, when the found instance is not
assignable to `T` it fails with TypeMismatch, and otherwise it returns the
found instance. -/
theorem C8_get_by_name_lookup (r : Reflections) (T N N2 : String)
    (htrans : (if startsWithDollar N then lookupS N r.singleton_path else some N)
      = some N2) :
    (lookupS N2 r.instances = none →
        Reflections.get r T (some N) = Except.error "NameNotFound") ∧
    (∀ o, lookupS N2 r.instances = some o → assignable o T = false →
        Reflections.get r T (some N) = Except.error "TypeMismatch") ∧
    (∀ o, lookupS N2 r.instances = some o → assignable o T = true →
        Reflections.get r T (some N) = Except.ok o) := by
  by_cases hd : startsWithDollar N
  · rw [if_pos hd] at htrans
    refine ⟨?_, ?_, ?_⟩
    · intro h0
      simp [Reflections.get, hd, htrans, getId, h0]
    · intro o h1 h2
      simp [Reflections.get, hd, htrans, getId, h1, h2]
    · intro o h1 h2
      simp [Reflections.get, hd, htrans, getId, h1, h2]
  · rw [if_neg hd] at htrans
    injection htrans with hN
    refine ⟨?_, ?_, ?_⟩
    · intro h0
      rw [← hN] at h0
      simp [Reflections.get, hd, getId, h0]
    · intro o h1 h2
      rw [← hN] at h1
      simp [Reflections.get, hd, getId, h1, h2]
    · intro o h1 h2
      rw [← hN] at h1
      simp [Reflections.get, hd, getId, h1, h2]

/-- C8 witness: the typed lookup law applied at a concrete graph with one
database instance reachable through the singleton path `$db`. -/
theorem C8_get_by_name_lookup_witness :
    (lookupS "db" (Reflections.mk [("db", ⟨"Db", ["Db"]⟩)] [] [("$db", "db")]).instances
        = none →
      Reflections.get (Reflections.mk [("db", ⟨"Db", ["Db"]⟩)] [] [("$db", "db")])
          "Db" (some "$db") = Except.error "NameNotFound") ∧
    (∀ o, lookupS "db" (Reflections.mk [("db", ⟨"Db", ["Db"]⟩)] [] [("$db", "db")]).instances
        = some o → assignable o "Db" = false →
      Reflections.get (Reflections.mk [("db", ⟨"Db", ["Db"]⟩)] [] [("$db", "db")])
          "Db" (some "$db") = Except.error "TypeMismatch") ∧
    (∀ o, lookupS "db" (Reflections.mk [("db", ⟨"Db", ["Db"]⟩)] [] [("$db", "db")]).instances
        = some o → assignable o "Db" = true →
      Reflections.get (Reflections.mk [("db", ⟨"Db", ["Db"]⟩)] [] [("$db", "db")])
          "Db" (some "$db") = Except.ok o) :=
  C8_get_by_name_lookup (Reflections.mk [("db", ⟨"Db", ["Db"]⟩)] [] [("$db", "db")])
    "Db" "$db" "db" (by rfl)

end ModelMirror
